import Mathlib

/-!
Shallow embedding of the physics core of `src/physics.h` (with the vector and
position model of `src/vector.h`, `src/position.h`, `src/util.h` and
`src/dimension.h`).  Float (`float`/`double`) arithmetic is idealised as exact
rational arithmetic; machine integers are modelled as `Int`, with the
`size_t` conversions of line 406 of `physics.h` made explicit mod `2^64`.
The world's `unordered_set` of bodies is modelled as a list; `shared_ptr`
identity is modelled by an `oid` field.
-/

/-- Dimension tag from `dimension.h` (`enum class Dimension`). -/
inductive Dimension
  | Overworld
  | Last
deriving DecidableEq, Repr

/-- `VectorF` from `vector.h`: three floats, here rationals. -/
structure VectorF where
  x : ℚ
  y : ℚ
  z : ℚ
deriving DecidableEq, Repr

instance : Zero VectorF := ⟨⟨0, 0, 0⟩⟩

instance : Add VectorF := ⟨fun a b => ⟨a.x + b.x, a.y + b.y, a.z + b.z⟩⟩

instance : Sub VectorF := ⟨fun a b => ⟨a.x - b.x, a.y - b.y, a.z - b.z⟩⟩

instance : Neg VectorF := ⟨fun a => ⟨-a.x, -a.y, -a.z⟩⟩

instance : SMul ℚ VectorF := ⟨fun r v => ⟨r * v.x, r * v.y, r * v.z⟩⟩

instance : HDiv VectorF ℚ VectorF := ⟨fun v r => ⟨v.x / r, v.y / r, v.z / r⟩⟩

/-- `dot` from `vector.h`. -/
def dotV (a b : VectorF) : ℚ :=
  a.x * b.x + a.y * b.y + a.z * b.z

/-- `gravityVector` from `vector.h` (`VectorF(0, -9.8, 0)`). -/
def gravityVector : VectorF := ⟨0, -49/5, 0⟩

/-- `eps` from `util.h` (`1e-4`). -/
def eps : ℚ := 1/10000

/-- `limit` from `util.h`. -/
def limit (v minV maxV : ℚ) : ℚ :=
  if v > maxV then maxV else if minV > v then minV else v

/-- `sgn` from `util.h`. -/
def sgn (v : ℚ) : ℚ :=
  if v < 0 then -1 else if v > 0 then 1 else 0

/-- `interpolate` from `util.h` (`a + t * (b - a)`), at `T = VectorF`. -/
def interpolate (t : ℚ) (a b : VectorF) : VectorF :=
  a + t • (b - a)

/-- `ifloor` from `util.h`. -/
def ifloor (v : ℚ) : ℤ := ⌊v⌋

/-- `iceil` from `util.h`. -/
def iceil (v : ℚ) : ℤ := ⌈v⌉

/-- `PositionF` from `position.h`: a `VectorF` plus a dimension tag. -/
structure PositionF extends VectorF where
  d : Dimension
deriving DecidableEq, Repr

/-- `PositionF operator +(PositionF, VectorF)` from `position.h`. -/
instance : HAdd PositionF VectorF PositionF :=
  ⟨fun a b => ⟨a.toVectorF + b, a.d⟩⟩

/-- `VectorF operator -(const PositionF &, const PositionF &)` from `position.h`. -/
instance : HSub PositionF PositionF VectorF :=
  ⟨fun a b => a.toVectorF - b.toVectorF⟩

/-- `PositionF operator /(PositionF, float)` from `position.h`. -/
instance : HDiv PositionF ℚ PositionF :=
  ⟨fun a b => ⟨a.toVectorF / b, a.d⟩⟩

/-- `PhysicsWorld::distanceEPS = 20 * eps` (`physics.h` line 112). -/
def distanceEPS : ℚ := 20 * eps

/-- `PhysicsWorld::timeEPS = eps` (`physics.h` line 113). -/
def timeEPS : ℚ := eps

/-- `PhysicsProperties` from `physics.h` lines 19-26. -/
structure PhysicsProperties where
  bounceFactor : ℚ
  slideFactor : ℚ
deriving DecidableEq, Repr

/-- The binary32 value of `sqrt(0.5f)`, which the `PhysicsProperties`
constructor uses as default `bounceFactor`. -/
def sqrtHalfF : ℚ := 11863283 / 16777216

/-- The `PhysicsProperties(float, float)` constructor (`physics.h` lines 22-25):
both factors are clamped to `[0, 1]` by `limit`. -/
def PhysicsProperties.ctor (bounceFactor slideFactor : ℚ) : PhysicsProperties :=
  ⟨limit bounceFactor 0 1, limit slideFactor 0 1⟩

/-- The default-constructed `PhysicsProperties`: the constructor's default
arguments are `sqrt(0.5f)` and `1 - sqrt(0.5f)`. -/
def PhysicsProperties.defaultCtor : PhysicsProperties :=
  PhysicsProperties.ctor sqrtHalfF (1 - sqrtHalfF)

/-- `PhysicsConstraint` from `physics.h` line 28: mutates a position and a
velocity, modelled as a pure pair-valued function. -/
def PhysicsConstraint : Type :=
  PositionF → VectorF → PositionF × VectorF

/-- `PhysicsObject` state (`physics.h` lines 30-103).  The two state slots are
indexed by a `Bool` standing for the C++ `int` indices `0`/`1`; `oid` models
`shared_ptr` identity.  The C++ constructor leaves `supported` uninitialized;
it is modelled as `false`. -/
structure PhysicsObject where
  oid : ℕ
  position : Bool → PositionF
  velocity : Bool → VectorF
  objectTime : Bool → ℚ
  affectedByGravity : Bool
  isStatic_ : Bool
  supported : Bool
  destroyed : Bool
  extents : VectorF
  latestUpdateTag : ℕ
  newStateCount : ℕ
  properties : PhysicsProperties
  constraints : Option (List PhysicsConstraint)

/-- The `PhysicsObject` private constructor (`physics.h` lines 189-192).  Its
member-initializer list copies `position`, `velocity` and the world time into
both slots and sets the flags, but does NOT initialize the `properties`
member from its `properties` parameter, so that member is default-constructed. -/
def PhysicsObject.ctor (oid : ℕ) (position : PositionF) (velocity : VectorF)
    (affectedByGravity isStatic : Bool) (extents : VectorF) (worldTime : ℚ)
    (properties : PhysicsProperties) : PhysicsObject :=
  { oid := oid
    position := fun _ => position
    velocity := fun _ => velocity
    objectTime := fun _ => worldTime
    affectedByGravity := affectedByGravity
    isStatic_ := isStatic
    supported := false
    destroyed := false
    extents := extents
    latestUpdateTag := 0
    newStateCount := 0
    properties := PhysicsProperties.defaultCtor
    constraints := none }

/-- `PhysicsObject::getPosition` (`physics.h` lines 206-214).  `t` is the
world's `currentTime` and `vsi` the world's old variable-set index. -/
def PhysicsObject.getPosition (o : PhysicsObject) (t : ℚ) (vsi : Bool) : PositionF :=
  let deltaTime := t - o.objectTime vsi
  if o.affectedByGravity && !o.supported then
    o.position vsi + (deltaTime • o.velocity vsi)
      + ((1/2) * deltaTime * deltaTime) • gravityVector
  else
    o.position vsi + (deltaTime • o.velocity vsi)

/-- `PhysicsObject::getVelocity` (`physics.h` lines 216-224). -/
def PhysicsObject.getVelocity (o : PhysicsObject) (t : ℚ) (vsi : Bool) : VectorF :=
  if !o.affectedByGravity || o.supported then
    o.velocity vsi
  else
    o.velocity vsi + (t - o.objectTime vsi) • gravityVector

/-- `PhysicsObject::setNewState` (`physics.h` lines 226-241).  `vsi` is the
old variable-set index, so the new slot is `!vsi`; the submitted state is
blended into the new slot as a running average and both counters advance. -/
def PhysicsObject.setNewState (o : PhysicsObject) (t : ℚ) (vsi : Bool)
    (newPosition : PositionF) (newVelocity : VectorF) : PhysicsObject :=
  let v := !vsi
  let np := newPosition + (o.newStateCount : ℚ) • (o.position v).toVectorF
  let nv := newVelocity + (o.newStateCount : ℚ) • o.velocity v
  let c := o.newStateCount + 1
  { o with
    position := Function.update o.position v (np / (c : ℚ))
    velocity := Function.update o.velocity v (nv / (c : ℚ))
    objectTime := Function.update o.objectTime v t
    newStateCount := c
    latestUpdateTag := o.latestUpdateTag + 1 }

/-- `PhysicsObject::setupNewState` (`physics.h` lines 243-252): copies the old
slot into the new slot and resets the accumulation counter. -/
def PhysicsObject.setupNewState (o : PhysicsObject) (vsi : Bool) : PhysicsObject :=
  let n := !vsi
  { o with
    position := Function.update o.position n (o.position vsi)
    velocity := Function.update o.velocity n (o.velocity vsi)
    objectTime := Function.update o.objectTime n (o.objectTime vsi)
    newStateCount := 0 }

/-- `PhysicsObject::collides` (`physics.h` lines 254-277). -/
def PhysicsObject.collides (l rt : PhysicsObject) (t : ℚ) (vsi : Bool) : Bool :=
  let lPosition := l.getPosition t vsi
  let rPosition := rt.getPosition t vsi
  if lPosition.d ≠ rPosition.d then false
  else if lPosition.x - l.extents.x - distanceEPS > rPosition.x + rt.extents.x then false
  else if rPosition.x - rt.extents.x - distanceEPS > lPosition.x + l.extents.x then false
  else if lPosition.y - l.extents.y - distanceEPS > rPosition.y + rt.extents.y then false
  else if rPosition.y - rt.extents.y - distanceEPS > lPosition.y + l.extents.y then false
  else if lPosition.z - l.extents.z - distanceEPS > rPosition.z + rt.extents.z then false
  else if rPosition.z - rt.extents.z - distanceEPS > lPosition.z + l.extents.z then false
  else true

/-- `isSupportedBy` (`physics.h` lines 584-608). -/
def PhysicsObject.isSupportedBy (a rt : PhysicsObject) (t : ℚ) (vsi : Bool) : Bool :=
  if a.isStatic_ then true
  else if !rt.supported && !rt.isStatic_ then false
  else
    let aPosition := a.getPosition t vsi
    let bPosition := rt.getPosition t vsi
    if aPosition.d ≠ bPosition.d then false
    else
      let extentsSum := a.extents + rt.extents
      let deltaPosition : VectorF := aPosition - bPosition
      if deltaPosition.x + distanceEPS > -extentsSum.x ∧
         deltaPosition.x - distanceEPS < extentsSum.x ∧
         deltaPosition.z + distanceEPS > -extentsSum.z ∧
         deltaPosition.z - distanceEPS < extentsSum.z then
        if deltaPosition.y > 0 then
          if deltaPosition.y < distanceEPS * 4 + extentsSum.y then true
          else false
        else false
      else false

/-- `abs` on a float, as used by `physics.h` line 545. -/
def absF (q : ℚ) : ℚ := if q < 0 then -q else q

/-- Componentwise absolute value, as `AbsDeltaPosition` of `physics.h` line 545. -/
def absV (v : VectorF) : VectorF := ⟨absF v.x, absF v.y, absF v.z⟩

/-- `deltaPosition = aPosition - bPosition` (`physics.h` line 544), with both
positions read through `getPosition`. -/
def deltaPositionOf (a b : PhysicsObject) (t : ℚ) (vsi : Bool) : VectorF :=
  a.getPosition t vsi - b.getPosition t vsi

/-- `surfaceOffset = extentsSum - AbsDeltaPosition + VectorF(distanceEPS * 2)`
(`physics.h` lines 546-547). -/
def surfaceOffsetOf (a b : PhysicsObject) (t : ℚ) (vsi : Bool) : VectorF :=
  (a.extents + b.extents) - absV (deltaPositionOf a b t vsi)
    + ⟨distanceEPS * 2, distanceEPS * 2, distanceEPS * 2⟩

/-- The zero-component nudge of `physics.h` lines 556-561. -/
def nudge (q : ℚ) : ℚ := if q = 0 then distanceEPS else q

/-- `deltaPosition` after the three nudges of lines 556-561. -/
def nudgedDeltaOf (a b : PhysicsObject) (t : ℚ) (vsi : Bool) : VectorF :=
  let d := deltaPositionOf a b t vsi
  ⟨nudge d.x, nudge d.y, nudge d.z⟩

/-- `interpolationT` (`physics.h` lines 549-551). -/
def interpolationTOf (rt : PhysicsObject) : ℚ :=
  if rt.isStatic_ then 1 else 1/2

/-- `interpolationTY` (`physics.h` lines 552-554). -/
def interpolationTYOf (rt : PhysicsObject) : ℚ :=
  if rt.supported then 1 else interpolationTOf rt

/-- The axis selection of `physics.h` lines 555-576: returns the contact
normal and the pushed position. -/
def adjustChoice (a b : PhysicsObject) (t : ℚ) (vsi : Bool) : VectorF × PositionF :=
  let aPosition := a.getPosition t vsi
  let so := surfaceOffsetOf a b t vsi
  let dp := nudgedDeltaOf a b t vsi
  if so.x < so.y ∧ so.x < so.z then
    (⟨sgn dp.x, 0, 0⟩,
     { aPosition with x := aPosition.x + interpolationTOf b * sgn dp.x * so.x })
  else if so.y < so.z then
    (⟨0, sgn dp.y, 0⟩,
     { aPosition with y := aPosition.y + interpolationTYOf b * sgn dp.y * so.y })
  else
    (⟨0, 0, sgn dp.z⟩,
     { aPosition with z := aPosition.z + interpolationTOf b * sgn dp.z * so.z })

/-- The velocity response of `physics.h` lines 577-580, given the chosen
normal. -/
def adjustVelocityOf (a b : PhysicsObject) (t : ℚ) (vsi : Bool)
    (normal : VectorF) : VectorF :=
  let aVelocity := a.getVelocity t vsi
  let bVelocity := b.getVelocity t vsi
  let deltaVelocity := aVelocity - bVelocity
  if dotV deltaVelocity normal < 0 then
    aVelocity - interpolationTOf b •
      (((1 + a.properties.bounceFactor * b.properties.bounceFactor)
          * dotV deltaVelocity normal) • normal
        + ((1 - a.properties.slideFactor) * (1 - b.properties.slideFactor)) •
            (deltaVelocity - dotV deltaVelocity normal • normal))
  else
    interpolate (1/2) aVelocity bVelocity

/-- The state submitted by `adjustPosition` to `setNewState`
(`physics.h` lines 540-581, before the line-581 commit). -/
def adjustPositionCalc (a b : PhysicsObject) (t : ℚ) (vsi : Bool) :
    PositionF × VectorF :=
  let ch := adjustChoice a b t vsi
  (ch.2, adjustVelocityOf a b t vsi ch.1)

/-- `PhysicsObject::adjustPosition` (`physics.h` lines 536-582). -/
def PhysicsObject.adjustPosition (a b : PhysicsObject) (t : ℚ) (vsi : Bool) :
    PhysicsObject :=
  if a.isStatic_ then a
  else
    let pv := adjustPositionCalc a b t vsi
    a.setNewState t vsi pv.1 pv.2

/-- World state (`physics.h` lines 105-187).  The `unordered_set` of live
bodies is modelled as a list; its C++ iteration order is unspecified, so the
list order stands for one admissible iteration order. -/
structure PhysicsWorld where
  currentTime : ℚ
  variableSetIndex : Bool
  objects : List PhysicsObject

/-- `PhysicsWorld::getOldVariableSetIndex` (`physics.h` lines 118-121). -/
def PhysicsWorld.getOldVariableSetIndex (w : PhysicsWorld) : Bool :=
  w.variableSetIndex

/-- `PhysicsWorld::getNewVariableSetIndex` (`physics.h` lines 122-125). -/
def PhysicsWorld.getNewVariableSetIndex (w : PhysicsWorld) : Bool :=
  !w.variableSetIndex

/-- `PhysicsWorld::swapVariableSetIndex` (`physics.h` lines 177-180). -/
def PhysicsWorld.swapVariableSetIndex (w : PhysicsWorld) : PhysicsWorld :=
  { w with variableSetIndex := !w.variableSetIndex }

/-- `PhysicsObject::make` (`physics.h` lines 194-200): constructs the body and
inserts it into the world's live set. -/
def PhysicsObject.make (oid : ℕ) (position : PositionF) (velocity : VectorF)
    (affectedByGravity isStatic : Bool) (extents : VectorF)
    (properties : PhysicsProperties) (world : PhysicsWorld) :
    PhysicsObject × PhysicsWorld :=
  let retval := PhysicsObject.ctor oid position velocity affectedByGravity
    isStatic extents world.currentTime properties
  (retval, { world with objects := world.objects ++ [retval] })

/-- The sort key of `physics.h` line 341: bottom-surface height. -/
def bottomKey (o : PhysicsObject) (t : ℚ) (vsi : Bool) : ℚ :=
  (o.getPosition t vsi).y - o.extents.y

/-- Insertion into a list sorted ascending by `bottomKey`, realising the
`std::sort` of lines 342-345 (the order among equal keys is unspecified in
C++; this model keeps insertion order). -/
def insertByBottom (t : ℚ) (vsi : Bool) (o : PhysicsObject) :
    List PhysicsObject → List PhysicsObject
  | [] => [o]
  | b :: rest =>
      if bottomKey o t vsi < bottomKey b t vsi then o :: b :: rest
      else b :: insertByBottom t vsi o rest

/-- The ascending-by-bottom sort of `physics.h` lines 337-347. -/
def sortByBottom (t : ℚ) (vsi : Bool) (objs : List PhysicsObject) :
    List PhysicsObject :=
  objs.foldr (insertByBottom t vsi) []

/-- The in-place rewrite of the OLD slot at the start of each pass
(`physics.h` lines 353-355): `position[old] = getPosition()`,
`velocity[old] = getVelocity()`, `objectTime[old] = currentTime`.
`getVelocity` does not read the position, so the sequential C++ writes equal
this simultaneous update. -/
def normalizeOldSlot (o : PhysicsObject) (t : ℚ) (vsi : Bool) : PhysicsObject :=
  { o with
    position := Function.update o.position vsi (o.getPosition t vsi)
    velocity := Function.update o.velocity vsi (o.getVelocity t vsi)
    objectTime := Function.update o.objectTime vsi t }

/-- One iteration of the support loop of `physics.h` lines 348-373, with
`acc` the objects already processed (earlier in sorted order). -/
def supportStep (t : ℚ) (vsi : Bool) (acc : List PhysicsObject)
    (objectA : PhysicsObject) : List PhysicsObject :=
  if objectA.destroyed then acc ++ [objectA]
  else
    let o1 := normalizeOldSlot objectA t vsi
    let o2 := { o1 with supported := false }
    if o2.isStatic_ then acc ++ [{ o2 with supported := true }]
    else
      let sup := acc.any fun objectB =>
        !objectB.destroyed && o2.isSupportedBy objectB t vsi
      acc ++ [{ o2 with supported := sup }]

/-- The support loop of `physics.h` lines 348-373 over the sorted vector. -/
def supportPass (t : ℚ) (vsi : Bool) (objs : List PhysicsObject) :
    List PhysicsObject :=
  objs.foldl (supportStep t vsi) []

/-- `xScaleFactor` (`physics.h` line 374). -/
def xScaleFactor : ℕ := 5

/-- `zScaleFactor` (`physics.h` line 374). -/
def zScaleFactor : ℕ := 5

/-- `minX = ifloor(fMinX * xScaleFactor)` (`physics.h` lines 398-400). -/
def minXOf (o : PhysicsObject) (t : ℚ) (vsi : Bool) : ℤ :=
  ifloor (((o.getPosition t vsi).x - o.extents.x) * (xScaleFactor : ℚ))

/-- `maxX = iceil(fMaxX * xScaleFactor)` (`physics.h` lines 399-401). -/
def maxXOf (o : PhysicsObject) (t : ℚ) (vsi : Bool) : ℤ :=
  iceil (((o.getPosition t vsi).x + o.extents.x) * (xScaleFactor : ℚ))

/-- `minZ = ifloor(fMinZ * zScaleFactor)` (`physics.h` lines 402-404). -/
def minZOf (o : PhysicsObject) (t : ℚ) (vsi : Bool) : ℤ :=
  ifloor (((o.getPosition t vsi).z - o.extents.z) * (zScaleFactor : ℚ))

/-- `maxZ = iceil(fMaxZ * zScaleFactor)` (`physics.h` lines 403-405). -/
def maxZOf (o : PhysicsObject) (t : ℚ) (vsi : Bool) : ℤ :=
  iceil (((o.getPosition t vsi).z + o.extents.z) * (zScaleFactor : ℚ))

/-- The C++ conversion of an `int` value to `size_t`: reduction mod `2^64`,
with the resulting unsigned value represented as a nonnegative integer. -/
def sizeT (i : ℤ) : ℤ := i % (2 : ℤ) ^ 64

/-- The oversize test of `physics.h` line 406, exactly as written in the
source: `(size_t)(maxZ - minZ) * (size_t)(maxX * minX) >
(size_t)(xScaleFactor + 1) * (size_t)(zScaleFactor + 1)` — note the product
`maxX * minX` in the second factor (the `size_t` product wraps mod `2^64`).
A `true` result sends the body to the global `collideObjectsList` fallback
instead of the spatial hash. -/
def fallbackCondition (o : PhysicsObject) (t : ℚ) (vsi : Bool) : Bool :=
  (sizeT (maxZOf o t vsi - minZOf o t vsi) * sizeT (maxXOf o t vsi * minXOf o t vsi))
      % 2 ^ 64
    > ((xScaleFactor : ℤ) + 1) * ((zScaleFactor : ℤ) + 1)

/-- The integers from `lo` to `hi` inclusive (empty when `hi < lo`). -/
def intRange (lo hi : ℤ) : List ℤ :=
  (List.range (hi + 1 - lo).toNat).map fun (i : ℕ) => lo + (i : ℤ)

/-- The cells visited by the insertion loops of `physics.h` lines 412-428
(x outer ascending, z inner ascending, both inclusive). -/
def cellsOf (o : PhysicsObject) (t : ℚ) (vsi : Bool) : List (ℤ × ℤ) :=
  (intRange (minXOf o t vsi) (maxXOf o t vsi)).flatMap fun xPosition =>
    (intRange (minZOf o t vsi) (maxZOf o t vsi)).map fun zPosition =>
      (xPosition, zPosition)

/-- Whether a hashed body placed a node at the given cell (lines 412-428). -/
def coversCell (b : PhysicsObject) (t : ℚ) (vsi : Bool) (cell : ℤ × ℤ) : Bool :=
  decide (minXOf b t vsi ≤ cell.1 ∧ cell.1 ≤ maxXOf b t vsi ∧
          minZOf b t vsi ≤ cell.2 ∧ cell.2 ≤ maxZOf b t vsi)

/-- The classification loop of `physics.h` lines 387-431: destroyed bodies
are erased; each survivor gets `setupNewState` and then goes either to the
fallback `collideObjectsList` or into the spatial hash.  Returns
(survivors, fallback list, hashed bodies), each in iteration order. -/
def broadphaseClassify (t : ℚ) (vsi : Bool) (objs : List PhysicsObject) :
    List PhysicsObject × List PhysicsObject × List PhysicsObject :=
  objs.foldl
    (fun st o =>
      if o.destroyed then st
      else
        let o2 := o.setupNewState vsi
        if fallbackCondition o2 t vsi then (st.1 ++ [o2], st.2.1 ++ [o2], st.2.2)
        else (st.1 ++ [o2], st.2.1, st.2.2 ++ [o2]))
    ([], [], [])

/-- Deduplicating push of the per-object gathering (lines 459-487): a body is
appended only if no body with the same identity was gathered already. -/
def pushUnique (acc : List PhysicsObject) (b : PhysicsObject) :
    List PhysicsObject :=
  if acc.any fun c => c.oid = b.oid then acc else acc ++ [b]

/-- The candidate gathering of `physics.h` lines 437-503: the fallback list
prefix (line 437 resize) followed by every hashed body sharing one of
`objectA`'s covered cells, deduplicated.  Within one bucket the most recently
inserted node is found first, hence the `reverse`. -/
def gatherCandidates (objectA : PhysicsObject) (t : ℚ) (vsi : Bool)
    (hashed fallback : List PhysicsObject) : List PhysicsObject :=
  let cells := cellsOf objectA t vsi
  let gathered := cells.foldl
    (fun acc cell =>
      ((hashed.filter fun b => coversCell b t vsi cell).reverse).foldl
        pushUnique acc)
    []
  fallback ++ gathered

/-- The collision loop of `physics.h` lines 503-511: for every candidate that
is a different body and collides, apply `adjustPosition` and record that the
pass found a collision. -/
def collideFold (t : ℚ) (vsi : Bool) (objectA : PhysicsObject)
    (candidates : List PhysicsObject) : PhysicsObject × Bool :=
  candidates.foldl
    (fun st objectB =>
      if st.1.oid ≠ objectB.oid ∧ st.1.collides objectB t vsi then
        (st.1.adjustPosition objectB t vsi, true)
      else st)
    (objectA, false)

/-- The constraint application of `physics.h` lines 512-519: each constraint
of the attached list is applied, in list order, to the new-state slot.  The
C++ null-check on the `std::function` is vacuous here as constraints are
total functions. -/
def applyConstraints (o : PhysicsObject) (vsi : Bool) : PhysicsObject :=
  match o.constraints with
  | none => o
  | some cs =>
      let n := !vsi
      let pv := cs.foldl (fun pv c => c pv.1 pv.2) (o.position n, o.velocity n)
      { o with
        position := Function.update o.position n pv.1
        velocity := Function.update o.velocity n pv.2 }

/-- One iteration of the per-object loop of `physics.h` lines 433-520:
static bodies are skipped entirely (line 435 `continue`); otherwise collision
resolution against the candidates, then constraint application. -/
def resolveObject (t : ℚ) (vsi : Bool) (candidates : List PhysicsObject)
    (objectA : PhysicsObject) : PhysicsObject × Bool :=
  if objectA.isStatic_ then (objectA, false)
  else
    let st := collideFold t vsi objectA candidates
    (applyConstraints st.1 vsi, st.2)

/-- One relaxation pass (`physics.h` lines 334-532): sort by bottom height,
support computation with old-slot normalization, broad-phase classification,
per-object narrow phase plus constraints, then the parity swap of line 531.
Returns the new world and the `anyCollisions` flag.  Reads go through the old
slot only, so resolving the bodies by `map` matches the sequential C++ loop. -/
def relaxationPass (w : PhysicsWorld) : PhysicsWorld × Bool :=
  let t := w.currentTime
  let vsi := w.getOldVariableSetIndex
  let sorted := sortByBottom t vsi w.objects
  let afterSupport := supportPass t vsi sorted
  let cls := broadphaseClassify t vsi afterSupport
  let resolved := cls.1.map fun objectA =>
    resolveObject t vsi (gatherCandidates objectA t vsi cls.2.2 cls.2.1) objectA
  (PhysicsWorld.swapVariableSetIndex
    { currentTime := t
      variableSetIndex := w.variableSetIndex
      objects := resolved.map fun st => st.1 },
   resolved.any fun st => st.2)

/-- The inner pass loop of `physics.h` line 334: up to 10 passes, stopping
after a pass that found no collision. -/
def passLoop : ℕ → PhysicsWorld → PhysicsWorld
  | 0, w => w
  | n + 1, w =>
      let st := relaxationPass w
      if st.2 then passLoop n st.1 else st.1

/-- `stepDuration = 1 / 30.0f` (`physics.h` line 325). -/
def stepDuration : ℚ := 1/30

/-- `stepCount = (size_t)ceil((stopTime - currentTime) / stepDuration -
timeEPS)` (`physics.h` line 326); a non-positive ceiling converts to 0. -/
def stepCountOf (currentTime stopTime : ℚ) : ℕ :=
  (iceil ((stopTime - currentTime) / stepDuration - timeEPS)).toNat

/-- `PhysicsWorld::runToTime` (`physics.h` lines 323-534). -/
def PhysicsWorld.runToTime (w : PhysicsWorld) (stopTime : ℚ) : PhysicsWorld :=
  let stepCount := stepCountOf w.currentTime stopTime
  (List.range stepCount).foldl
    (fun w i =>
      let w2 := { w with
        currentTime :=
          if i + 1 ≥ stepCount then stopTime else w.currentTime + stepDuration }
      passLoop 10 w2)
    w

/-- `PhysicsWorld::stepTime` (`physics.h` lines 183-186). -/
def PhysicsWorld.stepTime (w : PhysicsWorld) (deltaTime : ℚ) : PhysicsWorld :=
  w.runToTime (deltaTime + w.currentTime)

/-- A body state with both slots equal, used as concrete test input. -/
def mkTestObject (oid : ℕ) (p : PositionF) (v : VectorF) (g s : Bool)
    (e : VectorF) : PhysicsObject :=
  { oid := oid
    position := fun _ => p
    velocity := fun _ => v
    objectTime := fun _ => 0
    affectedByGravity := g
    isStatic_ := s
    supported := false
    destroyed := false
    extents := e
    latestUpdateTag := 0
    newStateCount := 0
    properties := PhysicsProperties.defaultCtor
    constraints := none }

/-- Concrete input for the C3 tie-break counterexample: box at the origin. -/
def tieObjA : PhysicsObject :=
  mkTestObject 0 ⟨⟨0, 0, 0⟩, Dimension.Overworld⟩ 0 false false ⟨1, 1, 3⟩

/-- Concrete input for the C3 tie-break counterexample: static box offset by
`(-1, -1, -3)`, so the X and Y surface offsets tie below the Z one. -/
def tieObjB : PhysicsObject :=
  mkTestObject 1 ⟨⟨-1, -1, -3⟩, Dimension.Overworld⟩ 0 false true ⟨1, 1, 3⟩

/-- Concrete input for the C3 amended-claim witness: static box offset mostly
in Y, so the Y surface offset is the strict minimum. -/
def pushObjB : PhysicsObject :=
  mkTestObject 1 ⟨⟨1/4, -3/2, 0⟩, Dimension.Overworld⟩ 0 false true ⟨1, 1, 1⟩

/-- Concrete input for the C5 counterexample: unit box centred half a unit
above `supObjB`, so its bottom face is half a unit BELOW `supObjB`'s top. -/
def supObjA : PhysicsObject :=
  mkTestObject 0 ⟨⟨0, 1/2, 0⟩, Dimension.Overworld⟩ 0 false false ⟨1/2, 1/2, 1/2⟩

/-- Concrete input for the C5 counterexample: static unit box at the origin. -/
def supObjB : PhysicsObject :=
  mkTestObject 1 ⟨⟨0, 0, 0⟩, Dimension.Overworld⟩ 0 false true ⟨1/2, 1/2, 1/2⟩

/-- Concrete input for C6: a small box straddling `x = 0` whose footprint
covers the 9 cells `{-1, 0, 1} × {-1, 0, 1}`. -/
def smallObj : PhysicsObject :=
  mkTestObject 0 ⟨⟨0, 0, 0⟩, Dimension.Overworld⟩ 0 false false ⟨1/10, 1/10, 1/10⟩

/-- A constraint that shifts the position one unit along X. -/
def shiftConstraint : PhysicsConstraint :=
  fun p v => (p + (⟨1, 0, 0⟩ : VectorF), v)

/-- Concrete input for the C7 counterexample: a STATIC body carrying
`shiftConstraint`. -/
def staticConstrained : PhysicsObject :=
  { mkTestObject 0 ⟨⟨0, 0, 0⟩, Dimension.Overworld⟩ 0 false true ⟨1, 1, 1⟩ with
    constraints := some [shiftConstraint] }

/-- Concrete input for the C7 amended-claim witness: a non-static body
carrying `shiftConstraint`. -/
def movingConstrained : PhysicsObject :=
  { mkTestObject 0 ⟨⟨0, 0, 0⟩, Dimension.Overworld⟩ 0 false false ⟨1, 1, 1⟩ with
    constraints := some [shiftConstraint] }

/-- Concrete input for the C8 counterexample: a lone airborne body whose slot
time lags the world time by 1. -/
def airborneObj : PhysicsObject :=
  mkTestObject 7 ⟨⟨0, 10, 0⟩, Dimension.Overworld⟩ ⟨1, 0, 0⟩ true false
    ⟨1/10, 1/10, 1/10⟩

/-- Concrete world for the C8 counterexample. -/
def airborneWorld : PhysicsWorld :=
  { currentTime := 1, variableSetIndex := false, objects := [airborneObj] }

/-- Sum of a list of vectors. -/
def sumV (l : List VectorF) : VectorF :=
  l.foldr (fun a b => a + b) 0

/-- A sequence of `setNewState` calls on one body within one pass, with the
submitted (position, velocity) states listed in call order. -/
def applyStates (o : PhysicsObject) (t : ℚ) (vsi : Bool)
    (l : List (PositionF × VectorF)) : PhysicsObject :=
  l.foldl (fun o pv => o.setNewState t vsi pv.1 pv.2) o

/-- Coordinate axes, for stating which axis `adjustPosition` pushes along. -/
inductive Axis
  | X
  | Y
  | Z
deriving DecidableEq, Repr

/-- The component of a vector along an axis. -/
def axisComp (v : VectorF) : Axis → ℚ
  | Axis.X => v.x
  | Axis.Y => v.y
  | Axis.Z => v.z

/-- The axis of minimum component with ties broken X first, then Y, then Z:
the tie-break order asserted by the claim. -/
def argminXYZ (v : VectorF) : Axis :=
  if v.x ≤ v.y ∧ v.x ≤ v.z then Axis.X
  else if v.y ≤ v.z then Axis.Y
  else Axis.Z

/-- The axis of minimum component with ties broken Z first, then Y, then X:
the tie-break order the code actually implements. -/
def argminZYX (v : VectorF) : Axis :=
  if v.z ≤ v.x ∧ v.z ≤ v.y then Axis.Z
  else if v.y ≤ v.x then Axis.Y
  else Axis.X

/-- The support condition exactly as the claim words it (for non-static `A`):
B supported or static, same dimension, XZ footprint overlap within
`distanceEPS`, and A's bottom surface within `[0, 4·distanceEPS +
extentsSum.y]` ABOVE B's top surface.  Written from the claim, to be compared
against `isSupportedBy` from the source. -/
def isSupportedBySpecC5 (a rt : PhysicsObject) (t : ℚ) (vsi : Bool) : Bool :=
  let ap := a.getPosition t vsi
  let bp := rt.getPosition t vsi
  let extentsSum := a.extents + rt.extents
  let bottomGap := (ap.y - a.extents.y) - (bp.y + rt.extents.y)
  (rt.supported || rt.isStatic_) &&
    decide (ap.d = bp.d) &&
    decide (-extentsSum.x - distanceEPS < ap.x - bp.x ∧
            ap.x - bp.x < extentsSum.x + distanceEPS) &&
    decide (-extentsSum.z - distanceEPS < ap.z - bp.z ∧
            ap.z - bp.z < extentsSum.z + distanceEPS) &&
    decide (0 ≤ bottomGap ∧ bottomGap ≤ 4 * distanceEPS + extentsSum.y)


@[simp] theorem VectorF.zero_x : (0 : VectorF).x = 0 := rfl

@[simp] theorem VectorF.zero_y : (0 : VectorF).y = 0 := rfl

@[simp] theorem VectorF.zero_z : (0 : VectorF).z = 0 := rfl

@[simp] theorem VectorF.add_x (a b : VectorF) : (a + b).x = a.x + b.x := rfl

@[simp] theorem VectorF.add_y (a b : VectorF) : (a + b).y = a.y + b.y := rfl

@[simp] theorem VectorF.add_z (a b : VectorF) : (a + b).z = a.z + b.z := rfl

@[simp] theorem VectorF.sub_x (a b : VectorF) : (a - b).x = a.x - b.x := rfl

@[simp] theorem VectorF.sub_y (a b : VectorF) : (a - b).y = a.y - b.y := rfl

@[simp] theorem VectorF.sub_z (a b : VectorF) : (a - b).z = a.z - b.z := rfl

@[simp] theorem VectorF.neg_x (a : VectorF) : (-a).x = -a.x := rfl

@[simp] theorem VectorF.neg_y (a : VectorF) : (-a).y = -a.y := rfl

@[simp] theorem VectorF.neg_z (a : VectorF) : (-a).z = -a.z := rfl

@[simp] theorem VectorF.smul_x (r : ℚ) (a : VectorF) : (r • a).x = r * a.x := rfl

@[simp] theorem VectorF.smul_y (r : ℚ) (a : VectorF) : (r • a).y = r * a.y := rfl

@[simp] theorem VectorF.smul_z (r : ℚ) (a : VectorF) : (r • a).z = r * a.z := rfl

@[simp] theorem VectorF.div_x (a : VectorF) (r : ℚ) : (a / r).x = a.x / r := rfl

@[simp] theorem VectorF.div_y (a : VectorF) (r : ℚ) : (a / r).y = a.y / r := rfl

@[simp] theorem VectorF.div_z (a : VectorF) (r : ℚ) : (a / r).z = a.z / r := rfl

@[ext] theorem VectorF.extV {a b : VectorF} (hx : a.x = b.x) (hy : a.y = b.y)
    (hz : a.z = b.z) : a = b := by
  cases a; cases b; simp_all

@[simp] theorem PositionF.addVec_x (a : PositionF) (b : VectorF) :
    (a + b).x = a.x + b.x := rfl

@[simp] theorem PositionF.addVec_y (a : PositionF) (b : VectorF) :
    (a + b).y = a.y + b.y := rfl

@[simp] theorem PositionF.addVec_z (a : PositionF) (b : VectorF) :
    (a + b).z = a.z + b.z := rfl

@[simp] theorem PositionF.addVec_d (a : PositionF) (b : VectorF) :
    (a + b).d = a.d := rfl

@[simp] theorem PositionF.addVec_toVectorF (a : PositionF) (b : VectorF) :
    (a + b).toVectorF = a.toVectorF + b := rfl

@[simp] theorem PositionF.subPos_def (a b : PositionF) :
    a - b = a.toVectorF - b.toVectorF := rfl

@[simp] theorem PositionF.divQ_x (a : PositionF) (r : ℚ) : (a / r).x = a.x / r := rfl

@[simp] theorem PositionF.divQ_y (a : PositionF) (r : ℚ) : (a / r).y = a.y / r := rfl

@[simp] theorem PositionF.divQ_z (a : PositionF) (r : ℚ) : (a / r).z = a.z / r := rfl

@[simp] theorem PositionF.divQ_d (a : PositionF) (r : ℚ) : (a / r).d = a.d := rfl

@[ext] theorem PositionF.extP {a b : PositionF} (hx : a.x = b.x) (hy : a.y = b.y)
    (hz : a.z = b.z) (hd : a.d = b.d) : a = b := by
  cases a with
  | mk av ad => cases b with
    | mk bv bd =>
        cases av; cases bv; simp_all

theorem iceil_neg_floor (q : ℚ) : iceil q = -⌊-q⌋ := by
  rw [iceil, Int.floor_neg, neg_neg]

theorem intRange_eval_cons (lo hi : ℤ) (h : lo ≤ hi) :
    intRange lo hi = lo :: intRange (lo + 1) hi := by
  have h1 : (hi + 1 - lo).toNat = (hi + 1 - (lo + 1)).toNat + 1 := by omega
  rw [intRange, h1, List.range_succ_eq_map]
  simp only [List.map_cons, Nat.cast_zero, add_zero, List.map_map, List.cons.injEq,
    true_and, intRange]
  refine List.map_congr_left fun a ha => ?_
  simp only [Function.comp_apply]
  push_cast
  ring

theorem intRange_eval_nil (lo hi : ℤ) (h : ¬lo ≤ hi) : intRange lo hi = [] := by
  have h0 : (hi + 1 - lo).toNat = 0 := by omega
  simp [intRange, h0]

/-- C1: for every body, `getPosition()` returns
`position[old] + dt·velocity[old] + 0.5·dt²·gravity` when the body is
affected by gravity and not supported (`dt = currentTime - objectTime[old]`),
and `position[old] + dt·velocity[old]` otherwise; `getVelocity()` returns
`velocity[old] + dt·gravity` under the same airborne condition and the stored
`velocity[old]` unchanged otherwise. -/
theorem c1_getPosition_getVelocity (o : PhysicsObject) (t : ℚ) (vsi : Bool) :
    (o.affectedByGravity = true → o.supported = false →
      o.getPosition t vsi =
        o.position vsi + ((t - o.objectTime vsi) • o.velocity vsi)
          + ((1/2) * (t - o.objectTime vsi) * (t - o.objectTime vsi)) • gravityVector ∧
      o.getVelocity t vsi = o.velocity vsi + (t - o.objectTime vsi) • gravityVector) ∧
    (o.affectedByGravity = false ∨ o.supported = true →
      o.getPosition t vsi = o.position vsi + ((t - o.objectTime vsi) • o.velocity vsi) ∧
      o.getVelocity t vsi = o.velocity vsi) := by
  constructor
  · intro hg hs
    constructor <;> simp [PhysicsObject.getPosition, PhysicsObject.getVelocity, hg, hs]
  · rintro (h | h) <;>
      constructor <;> simp [PhysicsObject.getPosition, PhysicsObject.getVelocity, h]

/-- Witness for C1 at concrete airborne and gravity-free bodies. -/
theorem c1_witness :
    airborneObj.getPosition 1 false =
      airborneObj.position false
        + ((1 - airborneObj.objectTime false) • airborneObj.velocity false)
        + ((1/2) * (1 - airborneObj.objectTime false) * (1 - airborneObj.objectTime false))
            • gravityVector ∧
    supObjB.getVelocity 1 false = supObjB.velocity false :=
  ⟨((c1_getPosition_getVelocity airborneObj 1 false).1 rfl rfl).1,
   ((c1_getPosition_getVelocity supObjB 1 false).2 (Or.inl rfl)).2⟩

/-- C9: a zero-duration step is a complete no-op: `stepTime(0)` returns the
world unchanged, so every body's `getPosition()`/`getVelocity()` read back
the same values and no collision correction happens. -/
theorem c9_stepTime_zero (w : PhysicsWorld) :
    w.stepTime 0 = w ∧
    ((w.stepTime 0).objects.map fun o =>
        o.getPosition (w.stepTime 0).currentTime (w.stepTime 0).getOldVariableSetIndex)
      = (w.objects.map fun o => o.getPosition w.currentTime w.getOldVariableSetIndex) ∧
    ((w.stepTime 0).objects.map fun o =>
        o.getVelocity (w.stepTime 0).currentTime (w.stepTime 0).getOldVariableSetIndex)
      = (w.objects.map fun o => o.getVelocity w.currentTime w.getOldVariableSetIndex) := by
  have hc : stepCountOf w.currentTime w.currentTime = 0 := by
    norm_num [stepCountOf, stepDuration, timeEPS, eps, iceil_neg_floor]
  have h : w.stepTime 0 = w := by
    simp [PhysicsWorld.stepTime, PhysicsWorld.runToTime, hc]
  exact ⟨h, by rw [h], by rw [h]⟩

/-- C10: `PhysicsObject::make` discards its `properties` argument — the
constructor's initializer list omits the member, so every created body
carries the default-constructed `PhysicsProperties` with
`bounceFactor = sqrt(0.5f)` and `slideFactor = 1 - sqrt(0.5f)`. -/
theorem c10_make_ignores_properties (oid : ℕ) (p : PositionF) (v : VectorF)
    (g s : Bool) (e : VectorF) (props : PhysicsProperties) (w : PhysicsWorld) :
    ((PhysicsObject.make oid p v g s e props w).1).properties
        = PhysicsProperties.defaultCtor ∧
    PhysicsProperties.defaultCtor.bounceFactor = sqrtHalfF ∧
    PhysicsProperties.defaultCtor.slideFactor = 1 - sqrtHalfF := by
  refine ⟨rfl, ?_, ?_⟩ <;>
    norm_num [PhysicsProperties.defaultCtor, PhysicsProperties.ctor, limit, sqrtHalfF]

theorem VectorF.add_zero_v (v : VectorF) : v + 0 = v := by ext <;> simp

theorem VectorF.zero_smul_v (v : VectorF) : (0 : ℚ) • v = 0 := by ext <;> simp

theorem sumV_nil : sumV [] = 0 := rfl

theorem sumV_cons (a : VectorF) (l : List VectorF) : sumV (a :: l) = a + sumV l := rfl

/-- One `setNewState` call: counters advance by one and the new slot holds
the running-average blend, stated in denominator-cleared form. -/
theorem setNewState_newSlot (o : PhysicsObject) (t : ℚ) (vsi : Bool)
    (p : PositionF) (v : VectorF) :
    (o.setNewState t vsi p v).newStateCount = o.newStateCount + 1 ∧
    (o.setNewState t vsi p v).latestUpdateTag = o.latestUpdateTag + 1 ∧
    ((o.newStateCount : ℚ) + 1) • ((o.setNewState t vsi p v).position (!vsi)).toVectorF
      = p.toVectorF + (o.newStateCount : ℚ) • (o.position (!vsi)).toVectorF ∧
    ((o.newStateCount : ℚ) + 1) • (o.setNewState t vsi p v).velocity (!vsi)
      = v + (o.newStateCount : ℚ) • o.velocity (!vsi) ∧
    ((o.setNewState t vsi p v).position (!vsi)).d = p.d ∧
    (o.setNewState t vsi p v).objectTime (!vsi) = t := by
  have hne : (o.newStateCount : ℚ) + 1 ≠ 0 := by positivity
  refine ⟨rfl, rfl, ?_, ?_, ?_, ?_⟩
  · ext <;> (simp [PhysicsObject.setNewState, Function.update_apply]; try field_simp; try ring)
  · ext <;> (simp [PhysicsObject.setNewState, Function.update_apply]; try field_simp; try ring)
  · simp [PhysicsObject.setNewState, Function.update_apply]
  · simp [PhysicsObject.setNewState, Function.update_apply]

/-- Folding `setNewState` over a list of submitted states, in
denominator-cleared form: counters advance by the list length and the new
slot satisfies the running-average recurrence. -/
theorem applyStates_general (t : ℚ) (vsi : Bool) (l : List (PositionF × VectorF)) :
    ∀ o : PhysicsObject,
      (applyStates o t vsi l).newStateCount = o.newStateCount + l.length ∧
      (applyStates o t vsi l).latestUpdateTag = o.latestUpdateTag + l.length ∧
      ((o.newStateCount : ℚ) + (l.length : ℚ))
          • ((applyStates o t vsi l).position (!vsi)).toVectorF
        = (o.newStateCount : ℚ) • (o.position (!vsi)).toVectorF
            + sumV (l.map fun pv => pv.1.toVectorF) ∧
      ((o.newStateCount : ℚ) + (l.length : ℚ)) • (applyStates o t vsi l).velocity (!vsi)
        = (o.newStateCount : ℚ) • o.velocity (!vsi) + sumV (l.map fun pv => pv.2) := by
  induction l with
  | nil =>
      intro o
      refine ⟨rfl, rfl, ?_, ?_⟩ <;> simp [applyStates, sumV_nil, VectorF.add_zero_v]
  | cons pv rest ih =>
      intro o
      have happ : applyStates o t vsi (pv :: rest)
          = applyStates (o.setNewState t vsi pv.1 pv.2) t vsi rest := rfl
      obtain ⟨ih1, ih2, ih3, ih4⟩ := ih (o.setNewState t vsi pv.1 pv.2)
      obtain ⟨hc, ht, hp, hv, _, _⟩ := setNewState_newSlot o t vsi pv.1 pv.2
      refine ⟨?_, ?_, ?_, ?_⟩
      · rw [happ, ih1, hc, List.length_cons]; omega
      · rw [happ, ih2, ht, List.length_cons]; omega
      · rw [happ, List.map_cons, sumV_cons]
        simp only [List.length_cons]
        rw [hc] at ih3
        have hpx := congrArg VectorF.x hp
        have hpy := congrArg VectorF.y hp
        have hpz := congrArg VectorF.z hp
        have h3x := congrArg VectorF.x ih3
        have h3y := congrArg VectorF.y ih3
        have h3z := congrArg VectorF.z ih3
        simp only [VectorF.smul_x, VectorF.smul_y, VectorF.smul_z, VectorF.add_x,
          VectorF.add_y, VectorF.add_z] at hpx hpy hpz h3x h3y h3z
        push_cast at h3x h3y h3z ⊢
        ext
        · simp only [VectorF.smul_x, VectorF.add_x]; linear_combination h3x + hpx
        · simp only [VectorF.smul_y, VectorF.add_y]; linear_combination h3y + hpy
        · simp only [VectorF.smul_z, VectorF.add_z]; linear_combination h3z + hpz
      · rw [happ, List.map_cons, sumV_cons]
        simp only [List.length_cons]
        rw [hc] at ih4
        have hpx := congrArg VectorF.x hv
        have hpy := congrArg VectorF.y hv
        have hpz := congrArg VectorF.z hv
        have h3x := congrArg VectorF.x ih4
        have h3y := congrArg VectorF.y ih4
        have h3z := congrArg VectorF.z ih4
        simp only [VectorF.smul_x, VectorF.smul_y, VectorF.smul_z, VectorF.add_x,
          VectorF.add_y, VectorF.add_z] at hpx hpy hpz h3x h3y h3z
        push_cast at h3x h3y h3z ⊢
        ext
        · simp only [VectorF.smul_x, VectorF.add_x]; linear_combination h3x + hpx
        · simp only [VectorF.smul_y, VectorF.add_y]; linear_combination h3y + hpy
        · simp only [VectorF.smul_z, VectorF.add_z]; linear_combination h3z + hpz

/-- C2: after `setupNewState()` (which copies the old slot into the new slot
and resets the accumulation counter), `k` calls to `setNewState` leave the
new slot holding the arithmetic mean of the `k` submitted positions and
velocities, with the per-pass counter at `k` and the monotonic update
counter advanced by `k`. -/
theorem c2_running_average (o : PhysicsObject) (t : ℚ) (vsi : Bool)
    (l : List (PositionF × VectorF)) (h : l ≠ []) :
    (applyStates (o.setupNewState vsi) t vsi l).newStateCount = l.length ∧
    (applyStates (o.setupNewState vsi) t vsi l).latestUpdateTag
      = o.latestUpdateTag + l.length ∧
    ((applyStates (o.setupNewState vsi) t vsi l).position (!vsi)).toVectorF
      = (1 / (l.length : ℚ)) • sumV (l.map fun pv => pv.1.toVectorF) ∧
    (applyStates (o.setupNewState vsi) t vsi l).velocity (!vsi)
      = (1 / (l.length : ℚ)) • sumV (l.map fun pv => pv.2) ∧
    (o.setupNewState vsi).position (!vsi) = o.position vsi ∧
    (o.setupNewState vsi).velocity (!vsi) = o.velocity vsi ∧
    (o.setupNewState vsi).objectTime (!vsi) = o.objectTime vsi ∧
    (o.setupNewState vsi).newStateCount = 0 := by
  obtain ⟨h1, h2, h3, h4⟩ := applyStates_general t vsi l (o.setupNewState vsi)
  have hsc : (o.setupNewState vsi).newStateCount = 0 := rfl
  have hlen : (l.length : ℚ) ≠ 0 := by
    have hne : l.length ≠ 0 := by simpa [List.length_eq_zero] using h
    exact_mod_cast Nat.cast_ne_zero.mpr hne
  rw [hsc] at h1 h3 h4
  simp only [Nat.cast_zero, zero_add, VectorF.zero_smul_v] at h3 h4
  refine ⟨by simpa using h1, by simpa using h2, ?_, ?_, ?_, ?_, ?_, rfl⟩
  · have h3x := congrArg VectorF.x h3
    have h3y := congrArg VectorF.y h3
    have h3z := congrArg VectorF.z h3
    simp only [VectorF.smul_x, VectorF.smul_y, VectorF.smul_z, VectorF.add_x, VectorF.add_y,
      VectorF.add_z, VectorF.zero_x, VectorF.zero_y, VectorF.zero_z, zero_add] at h3x h3y h3z
    ext
    · simp only [VectorF.smul_x]; field_simp; linear_combination h3x
    · simp only [VectorF.smul_y]; field_simp; linear_combination h3y
    · simp only [VectorF.smul_z]; field_simp; linear_combination h3z
  · have h4x := congrArg VectorF.x h4
    have h4y := congrArg VectorF.y h4
    have h4z := congrArg VectorF.z h4
    simp only [VectorF.smul_x, VectorF.smul_y, VectorF.smul_z, VectorF.add_x, VectorF.add_y,
      VectorF.add_z, VectorF.zero_x, VectorF.zero_y, VectorF.zero_z, zero_add] at h4x h4y h4z
    ext
    · simp only [VectorF.smul_x]; field_simp; linear_combination h4x
    · simp only [VectorF.smul_y]; field_simp; linear_combination h4y
    · simp only [VectorF.smul_z]; field_simp; linear_combination h4z
  · simp [PhysicsObject.setupNewState, Function.update_apply]
  · simp [PhysicsObject.setupNewState, Function.update_apply]
  · simp [PhysicsObject.setupNewState, Function.update_apply]

/-- Witness for C2: two submitted states average to their midpoint. -/
theorem c2_witness :
    (applyStates (supObjB.setupNewState false) 0 false
        [(⟨⟨1, 2, 3⟩, Dimension.Overworld⟩, ⟨1, 0, 0⟩),
         (⟨⟨3, 4, 5⟩, Dimension.Overworld⟩, ⟨0, 2, 0⟩)]).newStateCount = 2 ∧
    ((applyStates (supObjB.setupNewState false) 0 false
        [(⟨⟨1, 2, 3⟩, Dimension.Overworld⟩, ⟨1, 0, 0⟩),
         (⟨⟨3, 4, 5⟩, Dimension.Overworld⟩, ⟨0, 2, 0⟩)]).position true).toVectorF
      = ⟨2, 3, 4⟩ ∧
    (applyStates (supObjB.setupNewState false) 0 false
        [(⟨⟨1, 2, 3⟩, Dimension.Overworld⟩, ⟨1, 0, 0⟩),
         (⟨⟨3, 4, 5⟩, Dimension.Overworld⟩, ⟨0, 2, 0⟩)]).velocity true = ⟨1/2, 1, 0⟩ := by
  obtain ⟨hc, ht, hp, hv, hrest⟩ := c2_running_average supObjB 0 false
    [(⟨⟨1, 2, 3⟩, Dimension.Overworld⟩, ⟨1, 0, 0⟩),
     (⟨⟨3, 4, 5⟩, Dimension.Overworld⟩, ⟨0, 2, 0⟩)] (by simp)
  simp only [Bool.not_false] at hp hv
  refine ⟨by simpa using hc, ?_, ?_⟩
  · rw [hp]
    ext <;> norm_num [sumV]
  · rw [hv]
    ext <;> norm_num [sumV]

theorem sgn_nudge_ne_zero (q : ℚ) : sgn (nudge q) ≠ 0 := by
  rcases eq_or_ne q 0 with h | h
  · norm_num [nudge, sgn, h, distanceEPS, eps]
  · rcases lt_or_gt_of_ne h with h1 | h1 <;> norm_num [nudge, sgn, h, h1, asymm h1]

theorem interpolationTOf_ne_zero (b : PhysicsObject) : interpolationTOf b ≠ 0 := by
  unfold interpolationTOf; split <;> norm_num

theorem interpolationTYOf_ne_zero (b : PhysicsObject) : interpolationTYOf b ≠ 0 := by
  unfold interpolationTYOf
  split
  · norm_num
  · exact interpolationTOf_ne_zero b

/-- C3 amended: in `adjustPosition`, the axis whose coordinate is changed is
the one with minimum `surfaceOffset`, but ties are broken Z first, then Y,
then X (X wins only when strictly minimal, Y only when strictly below Z) —
not X-then-Y-then-Z as claimed. -/
theorem c3_amended (a b : PhysicsObject) (t : ℚ) (vsi : Bool) (k : Axis)
    (hx : (surfaceOffsetOf a b t vsi).x ≠ 0)
    (hy : (surfaceOffsetOf a b t vsi).y ≠ 0)
    (hz : (surfaceOffsetOf a b t vsi).z ≠ 0) :
    (axisComp ((adjustPositionCalc a b t vsi).1).toVectorF k
        ≠ axisComp (a.getPosition t vsi).toVectorF k)
      ↔ k = argminZYX (surfaceOffsetOf a b t vsi) := by
  have hpx : interpolationTOf b * sgn (nudgedDeltaOf a b t vsi).x
      * (surfaceOffsetOf a b t vsi).x ≠ 0 :=
    mul_ne_zero (mul_ne_zero (interpolationTOf_ne_zero b) (sgn_nudge_ne_zero _)) hx
  have hpy : interpolationTYOf b * sgn (nudgedDeltaOf a b t vsi).y
      * (surfaceOffsetOf a b t vsi).y ≠ 0 :=
    mul_ne_zero (mul_ne_zero (interpolationTYOf_ne_zero b) (sgn_nudge_ne_zero _)) hy
  have hpz : interpolationTOf b * sgn (nudgedDeltaOf a b t vsi).z
      * (surfaceOffsetOf a b t vsi).z ≠ 0 :=
    mul_ne_zero (mul_ne_zero (interpolationTOf_ne_zero b) (sgn_nudge_ne_zero _)) hz
  by_cases h1 : (surfaceOffsetOf a b t vsi).x < (surfaceOffsetOf a b t vsi).y ∧
      (surfaceOffsetOf a b t vsi).x < (surfaceOffsetOf a b t vsi).z
  · have hargmin : argminZYX (surfaceOffsetOf a b t vsi) = Axis.X := by
      unfold argminZYX
      rw [if_neg (by rintro ⟨hzx, hzy⟩; exact absurd hzx (not_le.mpr h1.2)),
        if_neg (not_le.mpr h1.1)]
    simp only [adjustPositionCalc, adjustChoice, if_pos h1, hargmin]
    rcases k with _ | _ | _ <;> simp [axisComp, hpx]
  · by_cases h2 : (surfaceOffsetOf a b t vsi).y < (surfaceOffsetOf a b t vsi).z
    · have hargmin : argminZYX (surfaceOffsetOf a b t vsi) = Axis.Y := by
        unfold argminZYX
        rw [if_neg (by rintro ⟨hzx, hzy⟩; exact absurd hzy (not_le.mpr h2)),
          if_pos (by rcases not_and_or.mp h1 with h | h <;> linarith [le_of_not_lt h])]
      simp only [adjustPositionCalc, adjustChoice, if_neg h1, if_pos h2, hargmin]
      rcases k with _ | _ | _ <;> simp [axisComp, hpy]
    · have hargmin : argminZYX (surfaceOffsetOf a b t vsi) = Axis.Z := by
        unfold argminZYX
        rw [if_pos ⟨by rcases not_and_or.mp h1 with h | h <;>
              linarith [le_of_not_lt h, le_of_not_lt h2], le_of_not_lt h2⟩]
      simp only [adjustPositionCalc, adjustChoice, if_neg h1, if_neg h2, hargmin]
      rcases k with _ | _ | _ <;> simp [axisComp, hpz]

/-- C3 counterexample: with the X and Y surface offsets tied at the strict
minimum (251/250 each, Z at 751/250), the claim's X-first tie-break says the
push is along X, yet the code leaves the X coordinate unchanged and pushes
along Y. -/
theorem c3_counterexample :
    argminXYZ (surfaceOffsetOf tieObjA tieObjB 0 false) = Axis.X ∧
    surfaceOffsetOf tieObjA tieObjB 0 false = ⟨251/250, 251/250, 751/250⟩ ∧
    (adjustPositionCalc tieObjA tieObjB 0 false).1.x = (tieObjA.getPosition 0 false).x ∧
    (adjustPositionCalc tieObjA tieObjB 0 false).1.y ≠ (tieObjA.getPosition 0 false).y := by
  have hso : surfaceOffsetOf tieObjA tieObjB 0 false = ⟨251/250, 251/250, 751/250⟩ := by
    ext <;> norm_num [surfaceOffsetOf, deltaPositionOf, absV, absF, tieObjA, tieObjB,
      mkTestObject, PhysicsObject.getPosition, distanceEPS, eps, gravityVector]
  refine ⟨?_, hso, ?_, ?_⟩
  · rw [hso]; norm_num [argminXYZ]
  · norm_num [adjustPositionCalc, adjustChoice, surfaceOffsetOf, nudgedDeltaOf, nudge,
      deltaPositionOf, absV, absF, tieObjA, tieObjB, mkTestObject,
      PhysicsObject.getPosition, distanceEPS, eps, interpolationTOf, interpolationTYOf,
      sgn, gravityVector]
  · norm_num [adjustPositionCalc, adjustChoice, surfaceOffsetOf, nudgedDeltaOf, nudge,
      deltaPositionOf, absV, absF, tieObjA, tieObjB, mkTestObject,
      PhysicsObject.getPosition, distanceEPS, eps, interpolationTOf, interpolationTYOf,
      sgn, gravityVector]

/-- Witness for C3 amended at a strict Y-minimum configuration. -/
theorem c3_witness :
    (axisComp ((adjustPositionCalc tieObjA pushObjB 0 false).1).toVectorF Axis.Y
        ≠ axisComp (tieObjA.getPosition 0 false).toVectorF Axis.Y)
      ↔ Axis.Y = argminZYX (surfaceOffsetOf tieObjA pushObjB 0 false) :=
  c3_amended tieObjA pushObjB 0 false Axis.Y
    (by norm_num [surfaceOffsetOf, deltaPositionOf, absV, absF, tieObjA, pushObjB,
      mkTestObject, PhysicsObject.getPosition, distanceEPS, eps, gravityVector])
    (by norm_num [surfaceOffsetOf, deltaPositionOf, absV, absF, tieObjA, pushObjB,
      mkTestObject, PhysicsObject.getPosition, distanceEPS, eps, gravityVector])
    (by norm_num [surfaceOffsetOf, deltaPositionOf, absV, absF, tieObjA, pushObjB,
      mkTestObject, PhysicsObject.getPosition, distanceEPS, eps, gravityVector])

/-- C4: the velocity submitted by `adjustPosition(A,B)`: when the relative
velocity approaches along the chosen normal (`dot(relVel, normal) < 0`), A's
velocity is decremented by
`[(1 + bounceA·bounceB)·(v·n)·n + (1−slideA)·(1−slideB)·(v − (v·n)n)]·interpolationT`;
otherwise it is set to the midpoint average of A's and B's velocities. -/
theorem c4_velocity_response (a b : PhysicsObject) (t : ℚ) (vsi : Bool) :
    (adjustPositionCalc a b t vsi).2 =
      if dotV (a.getVelocity t vsi - b.getVelocity t vsi) (adjustChoice a b t vsi).1 < 0 then
        a.getVelocity t vsi - interpolationTOf b •
          (((1 + a.properties.bounceFactor * b.properties.bounceFactor)
              * dotV (a.getVelocity t vsi - b.getVelocity t vsi) (adjustChoice a b t vsi).1)
              • (adjustChoice a b t vsi).1
            + ((1 - a.properties.slideFactor) * (1 - b.properties.slideFactor)) •
                ((a.getVelocity t vsi - b.getVelocity t vsi)
                  - dotV (a.getVelocity t vsi - b.getVelocity t vsi)
                      (adjustChoice a b t vsi).1 • (adjustChoice a b t vsi).1))
      else (1/2 : ℚ) • (a.getVelocity t vsi + b.getVelocity t vsi) := by
  have h : (adjustPositionCalc a b t vsi).2
      = adjustVelocityOf a b t vsi (adjustChoice a b t vsi).1 := rfl
  rw [h]
  simp only [adjustVelocityOf]
  split
  · rfl
  · ext <;> simp [interpolate] <;> ring

/-- C5 amended: for non-static `A`, `isSupportedBy(A,B)` holds exactly when
B is supported or static, both are in the same dimension, the XZ footprints
overlap within `distanceEPS`, and A's CENTER lies strictly above B's center
by less than `4·distanceEPS + extentsSum.y` — a condition on the
center-to-center vertical offset, not on the claimed bottom-above-top gap. -/
theorem c5_amended (a rt : PhysicsObject) (t : ℚ) (vsi : Bool)
    (h : a.isStatic_ = false) :
    a.isSupportedBy rt t vsi = true ↔
      ((rt.supported = true ∨ rt.isStatic_ = true) ∧
       (a.getPosition t vsi).d = (rt.getPosition t vsi).d ∧
       (a.getPosition t vsi).x - (rt.getPosition t vsi).x + distanceEPS
           > -(a.extents + rt.extents).x ∧
       (a.getPosition t vsi).x - (rt.getPosition t vsi).x - distanceEPS
           < (a.extents + rt.extents).x ∧
       (a.getPosition t vsi).z - (rt.getPosition t vsi).z + distanceEPS
           > -(a.extents + rt.extents).z ∧
       (a.getPosition t vsi).z - (rt.getPosition t vsi).z - distanceEPS
           < (a.extents + rt.extents).z ∧
       0 < (a.getPosition t vsi).y - (rt.getPosition t vsi).y ∧
       (a.getPosition t vsi).y - (rt.getPosition t vsi).y
           < distanceEPS * 4 + (a.extents + rt.extents).y) := by
  simp only [PhysicsObject.isSupportedBy, h, Bool.false_eq_true, if_false,
    PositionF.subPos_def, VectorF.sub_x, VectorF.sub_y, VectorF.sub_z]
  split_ifs with h1 h2 h3 h4 h5 <;> simp_all <;>
    rcases Bool.eq_false_or_eq_true rt.supported with hb | hb <;> simp_all

/-- C5 counterexample: a unit box centred half a unit above a static unit
box (so its bottom face is half a unit BELOW the other's top face).  The
claim's interval `[0, 4·distanceEPS + extentsSum.y]` on the bottom-above-top
gap says "not supported", yet `isSupportedBy` returns true. -/
theorem c5_counterexample :
    supObjA.isStatic_ = false ∧
    supObjA.isSupportedBy supObjB 0 false = true ∧
    isSupportedBySpecC5 supObjA supObjB 0 false = false := by
  refine ⟨rfl, ?_, ?_⟩
  · norm_num [PhysicsObject.isSupportedBy, supObjA, supObjB, mkTestObject,
      PhysicsObject.getPosition, distanceEPS, eps, gravityVector]
  · norm_num [isSupportedBySpecC5, supObjA, supObjB, mkTestObject,
      PhysicsObject.getPosition, distanceEPS, eps, gravityVector]

/-- Witness for C5 amended at the concrete support pair. -/
theorem c5_witness :
    supObjA.isSupportedBy supObjB 0 false = true ↔
      ((supObjB.supported = true ∨ supObjB.isStatic_ = true) ∧
       (supObjA.getPosition 0 false).d = (supObjB.getPosition 0 false).d ∧
       (supObjA.getPosition 0 false).x - (supObjB.getPosition 0 false).x + distanceEPS
           > -(supObjA.extents + supObjB.extents).x ∧
       (supObjA.getPosition 0 false).x - (supObjB.getPosition 0 false).x - distanceEPS
           < (supObjA.extents + supObjB.extents).x ∧
       (supObjA.getPosition 0 false).z - (supObjB.getPosition 0 false).z + distanceEPS
           > -(supObjA.extents + supObjB.extents).z ∧
       (supObjA.getPosition 0 false).z - (supObjB.getPosition 0 false).z - distanceEPS
           < (supObjA.extents + supObjB.extents).z ∧
       0 < (supObjA.getPosition 0 false).y - (supObjB.getPosition 0 false).y ∧
       (supObjA.getPosition 0 false).y - (supObjB.getPosition 0 false).y
           < distanceEPS * 4 + (supObjA.extents + supObjB.extents).y) :=
  c5_amended supObjA supObjB 0 false rfl

/-- C6: evidence for the broad-phase classification bug.  A small box
straddling `x = 0` covers only the 9 cells `{-1,0,1} × {-1,0,1}` — within the
`(5+1)·(5+1)` bound, so per the claim it should be hashed into its covered
cells — yet line 406's `(size_t)(maxX * minX)` (a PRODUCT of the two cell
indices, where the parallel `maxZ - minZ` shows a range was intended) casts
`-1` to `2^64 - 1` and sends the body to the global fallback list. -/
theorem c6_fallback_bug :
    minXOf smallObj 0 false = -1 ∧ maxXOf smallObj 0 false = 1 ∧
    minZOf smallObj 0 false = -1 ∧ maxZOf smallObj 0 false = 1 ∧
    (cellsOf smallObj 0 false).length = 9 ∧
    (cellsOf smallObj 0 false).length ≤ (xScaleFactor + 1) * (zScaleFactor + 1) ∧
    fallbackCondition smallObj 0 false = true := by
  have h1 : minXOf smallObj 0 false = -1 := by
    norm_num [minXOf, ifloor, smallObj, mkTestObject, PhysicsObject.getPosition,
      xScaleFactor, gravityVector]
  have h2 : maxXOf smallObj 0 false = 1 := by
    norm_num [maxXOf, iceil_neg_floor, smallObj, mkTestObject, PhysicsObject.getPosition,
      xScaleFactor, gravityVector]
  have h3 : minZOf smallObj 0 false = -1 := by
    norm_num [minZOf, ifloor, smallObj, mkTestObject, PhysicsObject.getPosition,
      zScaleFactor, gravityVector]
  have h4 : maxZOf smallObj 0 false = 1 := by
    norm_num [maxZOf, iceil_neg_floor, smallObj, mkTestObject, PhysicsObject.getPosition,
      zScaleFactor, gravityVector]
  have h5 : (cellsOf smallObj 0 false).length = 9 := by
    norm_num [cellsOf, h1, h2, h3, h4, intRange_eval_cons, intRange_eval_nil]
  refine ⟨h1, h2, h3, h4, h5, by norm_num [h5, xScaleFactor, zScaleFactor], ?_⟩
  norm_num [fallbackCondition, sizeT, h1, h2, h3, h4, xScaleFactor, zScaleFactor]

theorem adjustPosition_constraints (a b : PhysicsObject) (t : ℚ) (vsi : Bool) :
    (a.adjustPosition b t vsi).constraints = a.constraints := by
  unfold PhysicsObject.adjustPosition
  split <;> rfl

theorem collideFold_general_constraints (t : ℚ) (vsi : Bool)
    (candidates : List PhysicsObject) :
    ∀ st : PhysicsObject × Bool,
      ((candidates.foldl
          (fun st objectB =>
            if st.1.oid ≠ objectB.oid ∧ st.1.collides objectB t vsi = true then
              (st.1.adjustPosition objectB t vsi, true)
            else st)
          st).1).constraints = st.1.constraints := by
  induction candidates with
  | nil => intro st; rfl
  | cons b rest ih =>
      intro st
      simp only [List.foldl_cons]
      rw [ih]
      split
      · simp [adjustPosition_constraints]
      · rfl

theorem collideFold_constraints (t : ℚ) (vsi : Bool) (objectA : PhysicsObject)
    (candidates : List PhysicsObject) :
    (collideFold t vsi objectA candidates).1.constraints = objectA.constraints :=
  collideFold_general_constraints t vsi candidates (objectA, false)

/-- C7 amended: in every relaxation pass, every live NON-STATIC body with an
attached ordered list of constraints has each constraint applied, in list
order, to its new-state slot after that body's geometric resolution; static
bodies are skipped by the `continue` of line 435, constraints included. -/
theorem c7_amended (t : ℚ) (vsi : Bool) (candidates : List PhysicsObject)
    (objectA : PhysicsObject) (cs : List PhysicsConstraint)
    (h : objectA.isStatic_ = false) (hcs : objectA.constraints = some cs) :
    (resolveObject t vsi candidates objectA).1
      = applyConstraints (collideFold t vsi objectA candidates).1 vsi ∧
    ((resolveObject t vsi candidates objectA).1.position (!vsi),
     (resolveObject t vsi candidates objectA).1.velocity (!vsi))
      = cs.foldl (fun pv c => c pv.1 pv.2)
          ((collideFold t vsi objectA candidates).1.position (!vsi),
           (collideFold t vsi objectA candidates).1.velocity (!vsi)) := by
  have hres : (resolveObject t vsi candidates objectA).1
      = applyConstraints (collideFold t vsi objectA candidates).1 vsi := by
    simp [resolveObject, h]
  have hc : (collideFold t vsi objectA candidates).1.constraints = some cs := by
    rw [collideFold_constraints]; exact hcs
  refine ⟨hres, ?_⟩
  rw [hres]
  unfold applyConstraints
  rw [hc]
  simp [Function.update_apply]

/-- C7 counterexample: a STATIC body carrying a position-shifting constraint
passes through the per-object resolution step completely unchanged — its
constraint, whose application would move the new-state slot, is never run. -/
theorem c7_counterexample :
    staticConstrained.isStatic_ = true ∧
    staticConstrained.constraints = some [shiftConstraint] ∧
    (resolveObject 0 false [] staticConstrained).1 = staticConstrained ∧
    (shiftConstraint (staticConstrained.position true) (staticConstrained.velocity true)).1
      ≠ staticConstrained.position true := by
  refine ⟨rfl, rfl, rfl, ?_⟩
  norm_num [shiftConstraint, staticConstrained, mkTestObject, PositionF.extP_iff,
    VectorF.extV_iff]

/-- Witness for C7 amended on a non-static constrained body. -/
theorem c7_witness :
    (resolveObject 0 false [] movingConstrained).1
      = applyConstraints (collideFold 0 false movingConstrained []).1 false ∧
    ((resolveObject 0 false [] movingConstrained).1.position true,
     (resolveObject 0 false [] movingConstrained).1.velocity true)
      = [shiftConstraint].foldl (fun pv c => c pv.1 pv.2)
          ((collideFold 0 false movingConstrained []).1.position true,
           (collideFold 0 false movingConstrained []).1.velocity true) := by
  have h := c7_amended 0 false [] movingConstrained [shiftConstraint] rfl rfl
  simpa using h

/-- C8 amended: exactly one parity value designates the old slot;
`getPosition`/`getVelocity` read only the old slot (plus flags); the
resolution writes (`setNewState`, `setupNewState`) target only the new slot;
and the parity bit flips after every relaxation pass.  BUT the pass's initial
time-normalization (lines 353-355) rewrites the OLD slot in place
(`position[old] = getPosition()` etc.), so not every in-pass write targets
the new slot as claimed. -/
theorem c8_amended (w : PhysicsWorld) (o o2 : PhysicsObject) (t : ℚ) (vsi : Bool)
    (p : PositionF) (v : VectorF)
    (h1 : o.position vsi = o2.position vsi) (h2 : o.velocity vsi = o2.velocity vsi)
    (h3 : o.objectTime vsi = o2.objectTime vsi)
    (h4 : o.affectedByGravity = o2.affectedByGravity) (h5 : o.supported = o2.supported) :
    w.getOldVariableSetIndex ≠ w.getNewVariableSetIndex ∧
    (o.setNewState t vsi p v).position vsi = o.position vsi ∧
    (o.setNewState t vsi p v).velocity vsi = o.velocity vsi ∧
    (o.setNewState t vsi p v).objectTime vsi = o.objectTime vsi ∧
    (o.setupNewState vsi).position vsi = o.position vsi ∧
    (o.setupNewState vsi).velocity vsi = o.velocity vsi ∧
    (o.setupNewState vsi).objectTime vsi = o.objectTime vsi ∧
    (normalizeOldSlot o t vsi).position (!vsi) = o.position (!vsi) ∧
    (normalizeOldSlot o t vsi).velocity (!vsi) = o.velocity (!vsi) ∧
    (normalizeOldSlot o t vsi).objectTime (!vsi) = o.objectTime (!vsi) ∧
    (normalizeOldSlot o t vsi).position vsi = o.getPosition t vsi ∧
    ((relaxationPass w).1).variableSetIndex = !w.variableSetIndex ∧
    o.getPosition t vsi = o2.getPosition t vsi ∧
    o.getVelocity t vsi = o2.getVelocity t vsi := by
  refine ⟨?_, ?_, ?_, ?_, ?_, ?_, ?_, ?_, ?_, ?_, ?_, ?_, ?_, ?_⟩
  · simp [PhysicsWorld.getOldVariableSetIndex, PhysicsWorld.getNewVariableSetIndex]
  · simp [PhysicsObject.setNewState, Function.update_apply]
  · simp [PhysicsObject.setNewState, Function.update_apply]
  · simp [PhysicsObject.setNewState, Function.update_apply]
  · simp [PhysicsObject.setupNewState, Function.update_apply]
  · simp [PhysicsObject.setupNewState, Function.update_apply]
  · simp [PhysicsObject.setupNewState, Function.update_apply]
  · simp [normalizeOldSlot, Function.update_apply]
  · simp [normalizeOldSlot, Function.update_apply]
  · simp [normalizeOldSlot, Function.update_apply]
  · simp [normalizeOldSlot, Function.update_apply]
  · rfl
  · simp [PhysicsObject.getPosition, h1, h2, h3, h4, h5]
  · simp [PhysicsObject.getVelocity, h2, h3, h4, h5]

set_option maxHeartbeats 1600000 in
set_option maxRecDepth 4000 in
/-- C8 counterexample: one relaxation pass over a lone airborne body changes
the body's OLD-slot position (the support phase folds the analytic
extrapolation into the old slot), refuting "every write during a pass
targets the new slot". -/
theorem c8_counterexample :
    ((relaxationPass airborneWorld).1.objects.map fun o =>
        o.position airborneWorld.getOldVariableSetIndex)
      ≠ airborneWorld.objects.map fun o =>
          o.position airborneWorld.getOldVariableSetIndex := by
  norm_num [relaxationPass, sortByBottom, insertByBottom, supportPass, supportStep,
    normalizeOldSlot, broadphaseClassify, gatherCandidates, resolveObject, collideFold,
    applyConstraints, pushUnique, cellsOf, intRange_eval_cons, intRange_eval_nil, coversCell,
    fallbackCondition, minXOf, maxXOf, minZOf, maxZOf, ifloor, iceil_neg_floor, sizeT,
    xScaleFactor, zScaleFactor, airborneWorld, airborneObj, mkTestObject,
    PhysicsObject.getPosition, PhysicsObject.getVelocity, PhysicsObject.setupNewState,
    PhysicsWorld.swapVariableSetIndex, PhysicsWorld.getOldVariableSetIndex,
    Function.update_apply, gravityVector, bottomKey, PositionF.extP_iff, VectorF.extV_iff]

/-- Witness for C8 amended at the concrete airborne world. -/
theorem c8_witness :
    airborneWorld.getOldVariableSetIndex ≠ airborneWorld.getNewVariableSetIndex ∧
    (airborneObj.setNewState 1 false (airborneObj.position false)
        (airborneObj.velocity false)).position false = airborneObj.position false ∧
    (normalizeOldSlot airborneObj 1 false).position true = airborneObj.position true ∧
    ((relaxationPass airborneWorld).1).variableSetIndex = !airborneWorld.variableSetIndex := by
  obtain ⟨g1, g2, g3, g4, g5, g6, g7, g8, g9, g10, g11, g12, g13, g14⟩ :=
    c8_amended airborneWorld airborneObj airborneObj 1 false
      (airborneObj.position false) (airborneObj.velocity false) rfl rfl rfl rfl rfl
  exact ⟨g1, g2, g8, g12⟩
